import Mathlib

/-
Verification of the RabbitMQ client layer and health-check surface of the
Potato repository, as a shallow embedding in Lean 4.

Embedded source files:
  services/shared_libs/RabbitMQ/AbstractRabbitMQ.py   (connect, disconnect, _ready)
  services/shared_libs/RabbitMQ/RabbitMQProducer.py   (publish, _basic_publish)
  services/shared_libs/RabbitMQ/RabbitMQConsumer.py   (consume, stop_consuming, queue setter)
  services/shared_libs/RabbitMQ/RabbitMQStatefulMixin.py (_get_session_id_from_properties)
  services/shared_libs/HealthCheckMixin.py            (__init__, routes, status_code property)

Python exceptions are modelled with an explicit error type carried in
Except; Python truthiness is made explicit where the source relies on it.
-/

set_option autoImplicit false

namespace Potato

/-- Python exception values raised by the embedded code. Messages are kept
where the source states them. -/
inductive PyError where
  | runtimeError (msg : String)
  | typeError (msg : String)
  | valueError (msg : String)
  | amqpConnectionError
  | amqpChannelError
  | otherError (msg : String)
  deriving Repr, DecidableEq

/-- A pika connection or channel object, reduced to the one field the
embedded code reads: its is_open flag. -/
structure PikaHandle where
  is_open : Bool
  deriving Repr, DecidableEq

/-- The connection-related state of an AbstractRabbitMQ instance:
the _connection and _channel attributes (None before any connect). -/
structure RMQState where
  connection : Option PikaHandle
  channel : Option PikaHandle
  deriving Repr, DecidableEq

/-- State of a freshly constructed AbstractRabbitMQ instance:
_connection = None, _channel = None. -/
def initState : RMQState := { connection := none, channel := none }

/-- Result of one call to pika.BlockingConnection(parameters): how many
socket connection attempts were made, the trace of sleeps performed between
attempts (each entry is the duration slept), and whether a connection was
established (on failure pika raises AMQPConnectionError). -/
structure PikaOutcome where
  attempts : Nat
  sleeps : List Rat
  success : Bool
  deriving Repr, DecidableEq

/-- Retry loop of the external pika BlockingConnection adapter, modelled
from its documented contract as quoted in AbstractRabbitMQ.__init__:
connection_attempts is the number of socket connection attempts and
retry_delay the interval between socket connection attempts. The broker is
an oracle giving the outcome of each attempt; a failed attempt is followed
by a retry_delay sleep only when further attempts remain. -/
def pikaConnectLoop (broker : Nat → Bool) (retry_delay : Rat) (start : Nat) :
    Nat → PikaOutcome
  | 0 => { attempts := 0, sleeps := [], success := false }
  | 1 =>
    if broker start then { attempts := 1, sleeps := [], success := true }
    else { attempts := 1, sleeps := [], success := false }
  | (n + 2) =>
    if broker start then { attempts := 1, sleeps := [], success := true }
    else
      let r := pikaConnectLoop broker retry_delay (start + 1) (n + 1)
      { attempts := r.attempts + 1, sleeps := retry_delay :: r.sleeps,
        success := r.success }

/-- Result of AbstractRabbitMQ.connect(): the updated instance state, the
attempt and sleep accounting of the underlying pika call, how many times
the _setup hook ran, and the Python-level outcome (a returned Bool or a
raised exception). -/
structure ConnectResult where
  state : RMQState
  attempts : Nat
  sleeps : List Rat
  setupRuns : Nat
  result : Except PyError Bool
  deriving Repr

/-- AbstractRabbitMQ.connect(). On pika failure the AMQPConnectionError is
caught and False is returned with the instance state untouched (the
assignment to _connection never happened). On pika success _connection and
_channel are set to open handles and _setup runs once; an exception se
raised by _setup is re-raised, except that an AMQPConnectionError from the
try body is caught by the same handler and turned into False. -/
def connect (broker : Nat → Bool) (connection_attempts : Nat)
    (retry_delay : Rat) (setupErr : Option PyError) (s : RMQState) :
    ConnectResult :=
  let r := pikaConnectLoop broker retry_delay 0 connection_attempts
  if r.success then
    let connected : RMQState :=
      { connection := some { is_open := true },
        channel := some { is_open := true } }
    match setupErr with
    | none =>
      { state := connected, attempts := r.attempts, sleeps := r.sleeps,
        setupRuns := 1, result := Except.ok true }
    | some PyError.amqpConnectionError =>
      { state := connected, attempts := r.attempts, sleeps := r.sleeps,
        setupRuns := 1, result := Except.ok false }
    | some e =>
      { state := connected, attempts := r.attempts, sleeps := r.sleeps,
        setupRuns := 1, result := Except.error e }
  else
    { state := s, attempts := r.attempts, sleeps := r.sleeps,
      setupRuns := 0, result := Except.ok false }

/-- AbstractRabbitMQ._ready(): the Python expression
(self._connection and self._connection.is_open and self._channel and
self._channel.is_open), read as its truthiness. -/
def ready (s : RMQState) : Bool :=
  match s.connection, s.channel with
  | some conn, some ch => conn.is_open && ch.is_open
  | some _, none => false
  | none, _ => false

/-- AbstractRabbitMQ.disconnect(): closes the connection only when one
exists and is open (closing a pika connection also closes its channels);
otherwise a no-op. -/
def disconnect (s : RMQState) : RMQState :=
  match s.connection with
  | some conn =>
    if conn.is_open then
      { connection := some { is_open := false },
        channel := s.channel.map (fun _ => { is_open := false }) }
    else s
  | none => s

lemma pikaConnectLoop_allFail (broker : Nat → Bool) (retry_delay : Rat)
    (hb : ∀ j, broker j = false) :
    ∀ N start, 0 < N →
      pikaConnectLoop broker retry_delay start N =
        { attempts := N, sleeps := List.replicate (N - 1) retry_delay,
          success := false } := by
  intro N
  induction N with
  | zero => intro start h; omega
  | succ n ih =>
    intro start _
    cases n with
    | zero => simp [pikaConnectLoop, hb start]
    | succ m =>
      have hm := ih (start + 1) (Nat.succ_pos m)
      simp [pikaConnectLoop, hb start, hm, List.replicate]

lemma pikaConnectLoop_firstSuccess (broker : Nat → Bool) (retry_delay : Rat) :
    ∀ k N start, k < N → (∀ j, j < k → broker (start + j) = false) →
      broker (start + k) = true →
      pikaConnectLoop broker retry_delay start N =
        { attempts := k + 1, sleeps := List.replicate k retry_delay,
          success := true } := by
  intro k
  induction k with
  | zero =>
    intro N start hN _ hk
    rw [Nat.add_zero] at hk
    cases N with
    | zero => omega
    | succ n =>
      cases n with
      | zero => simp [pikaConnectLoop, hk]
      | succ m => simp [pikaConnectLoop, hk]
  | succ k ih =>
    intro N start hN hfail hk
    have hstart : broker start = false := by
      have := hfail 0 (Nat.succ_pos k)
      rwa [Nat.add_zero] at this
    cases N with
    | zero => omega
    | succ n =>
      cases n with
      | zero => omega
      | succ m =>
        have hrec := ih m.succ (start + 1) (by omega)
          (fun j hj => by
            have := hfail (j + 1) (by omega)
            rwa [Nat.add_comm j 1, ← Nat.add_assoc] at this)
          (by
            have h2 : start + 1 + k = start + (k + 1) := by omega
            rw [h2]; exact hk)
        simp [pikaConnectLoop, hstart, hrec, List.replicate]

/-- C1: with connectionAttempts = N (N positive) and an always-failing
broker, connect() makes exactly N attempts, performs exactly N - 1 sleeps
of retryDelay each (none after the final failed attempt), leaves the state
untouched and returns false without raising; and whenever the first
successful attempt is attempt k + 1 (all earlier attempts failing, k + 1
within the bound), connect() returns true after k + 1 attempts and k
sleeps. -/
theorem connect_bounded_retry (broker : Nat → Bool) (N : Nat)
    (retry_delay : Rat) (setupErr : Option PyError) (s : RMQState)
    (hN : 0 < N) :
    ((∀ j, broker j = false) →
      connect broker N retry_delay setupErr s =
        { state := s, attempts := N,
          sleeps := List.replicate (N - 1) retry_delay,
          setupRuns := 0, result := Except.ok false }) ∧
    (∀ k, k < N → (∀ j, j < k → broker j = false) → broker k = true →
      connect broker N retry_delay none s =
        { state := { connection := some { is_open := true },
                     channel := some { is_open := true } },
          attempts := k + 1, sleeps := List.replicate k retry_delay,
          setupRuns := 1, result := Except.ok true }) := by
  constructor
  · intro hb
    have hl := pikaConnectLoop_allFail broker retry_delay hb N 0 hN
    simp [connect, hl]
  · intro k hk hfail hsucc
    have hl := pikaConnectLoop_firstSuccess broker retry_delay k N 0 hk
      (fun j hj => by simpa using hfail j hj) (by simpa using hsucc)
    simp [connect, hl]

/-- Witness for C1: three attempts against an always-failing broker give
exactly 3 attempts, 2 sleeps and a false return; a broker succeeding on
the second attempt gives a true return after 2 attempts and 1 sleep. -/
theorem connect_bounded_retry_witness :
    connect (fun _ => false) 3 1 none initState =
      { state := initState, attempts := 3, sleeps := List.replicate 2 1,
        setupRuns := 0, result := Except.ok false } ∧
    connect (fun j => j == 1) 3 1 none initState =
      { state := { connection := some { is_open := true },
                   channel := some { is_open := true } },
        attempts := 2, sleeps := List.replicate 1 1,
        setupRuns := 1, result := Except.ok true } := by
  constructor
  · exact (connect_bounded_retry (fun _ => false) 3 1 none initState
      (by decide)).1 (fun _ => rfl)
  · exact (connect_bounded_retry (fun j => j == 1) 3 1 none initState
      (by decide)).2 1 (by decide)
      (fun j hj => by
        have hj0 : j = 0 := by omega
        simp [hj0]) (by decide)

/-- C2: _ready() is truthy exactly when the connection object exists and
is open and the channel object exists and is open; it is false on a fresh
instance, false after disconnect() from any state, and true on the state
produced by a connect() call that returned true. -/
theorem ready_characterisation :
    (∀ s : RMQState, ready s = true ↔
      ((∃ c, s.connection = some c ∧ c.is_open = true) ∧
       (∃ ch, s.channel = some ch ∧ ch.is_open = true))) ∧
    ready initState = false ∧
    (∀ s, ready (disconnect s) = false) ∧
    (∀ (broker : Nat → Bool) (N : Nat) (retry_delay : Rat)
       (setupErr : Option PyError) (s : RMQState),
      (connect broker N retry_delay setupErr s).result = Except.ok true →
      ready (connect broker N retry_delay setupErr s).state = true) := by
  refine ⟨?_, rfl, ?_, ?_⟩
  · intro s
    rcases s with ⟨oc, och⟩
    cases oc with
    | none => simp [ready]
    | some c =>
      cases och with
      | none => simp [ready]
      | some ch => simp [ready]
  · intro s
    rcases s with ⟨oc, och⟩
    cases oc with
    | none => cases och <;> simp [disconnect, ready]
    | some c =>
      cases hco : c.is_open <;> cases och <;>
        simp [disconnect, ready, hco]
  · intro broker N retry_delay setupErr s h
    cases hr : (pikaConnectLoop broker retry_delay 0 N).success with
    | false =>
      exfalso
      simp [connect, hr] at h
    | true =>
      cases setupErr with
      | none => simp [connect, hr, ready]
      | some e => cases e <;> simp [connect, hr, ready]

/-- Witness for C2: a broker succeeding at once yields a state on which
_ready() is true. -/
theorem ready_characterisation_witness :
    ready (connect (fun _ => true) 1 1 none initState).state = true :=
  ready_characterisation.2.2.2 (fun _ => true) 1 1 none initState rfl

/-- Message of the RuntimeError raised by both RabbitMQProducer
._basic_publish and RabbitMQConsumer.consume when the instance is not
ready (the consumer reuses the producer wording verbatim). -/
def notConnectedError : PyError :=
  PyError.runtimeError "RabbitMQProducer is not connected. Call connect() first."

/-- pika.DeliveryMode.Persistent. -/
def deliveryModePersistent : Nat := 2

/-- pika.DeliveryMode.Transient. -/
def deliveryModeTransient : Nat := 1

/-- Operations issued to the broker through the pika channel. -/
inductive BrokerCall where
  | basicPublish (exchange : String) (routing_key : String)
      (body : List Nat) (delivery_mode : Nat)
  | basicConsume (queue : String) (auto_ack : Bool)
  | startConsuming
  | basicCancel (tag : String)
  deriving Repr, DecidableEq

/-- Result of a publish call: the Python-level outcome and the broker
calls made, in order. -/
structure PublishResult where
  result : Except PyError Unit
  calls : List BrokerCall
  deriving Repr

/-- RabbitMQProducer._basic_publish(exchange, routing_key, body, durable).
Raises the not-connected RuntimeError before any broker call when not
ready; otherwise issues exactly one basic_publish with delivery_mode
Persistent when durable else Transient, and re-raises any error the
channel raises (channelErr models the behaviour of the external channel
during this call). -/
def basic_publish (s : RMQState) (exchange routing_key : String)
    (body : List Nat) (durable : Bool) (channelErr : Option PyError) :
    PublishResult :=
  if ready s then
    let call := BrokerCall.basicPublish exchange routing_key body
      (if durable then deliveryModePersistent else deliveryModeTransient)
    match channelErr with
    | none => { result := Except.ok (), calls := [call] }
    | some e => { result := Except.error e, calls := [call] }
  else
    { result := Except.error notConnectedError, calls := [] }

/-- RabbitMQProducer.publish(message, routing_key, exchange, durable):
delegates to _basic_publish(exchange, routing_key, message, durable). -/
def publish (s : RMQState) (message : List Nat)
    (routing_key exchange : String) (durable : Bool)
    (channelErr : Option PyError) : PublishResult :=
  basic_publish s exchange routing_key message durable channelErr

/-- The consumer-related attributes of a RabbitMQConsumer instance,
together with the inherited connection state. -/
structure ConsumerState where
  rmq : RMQState
  queue : String
  consuming : Bool
  consumer_tag : Option String
  deriving Repr, DecidableEq

/-- Truthiness of the _consumer_tag attribute (None and the empty string
are falsy). -/
def tagTruthy : Option String → Bool
  | none => false
  | some t => t != ""

/-- Observable events of RabbitMQConsumer.stop_consuming, in order:
the broker-side basic_cancel, the call to the owner-supplied
_handle_unacknowledged_messages hook, and the clearing of the
subscription handle in the finally block. -/
inductive ConsEvent where
  | brokerCancel (tag : String)
  | unackedHandler (msgs : List Nat)
  | clearHandle
  deriving Repr, DecidableEq

/-- Result of RabbitMQConsumer.stop_consuming. -/
structure StopResult where
  state : ConsumerState
  events : List ConsEvent
  deriving Repr, DecidableEq

/-- RabbitMQConsumer.stop_consuming(): acts only when _consumer_tag is
truthy and the instance is ready; then basic_cancel is issued (unacked
models the list of unacknowledged deliveries it returns), the
unacknowledged-message hook runs exactly when that list is truthy, and the
finally block clears _consuming and _consumer_tag. In every other state it
is a no-op that raises nothing. -/
def stop_consuming (unacked : List Nat) (s : ConsumerState) : StopResult :=
  match s.consumer_tag with
  | some tag =>
    if (tag != "") && ready s.rmq then
      { state := { s with consuming := false, consumer_tag := none },
        events := [ConsEvent.brokerCancel tag] ++
          (if unacked.isEmpty then [] else [ConsEvent.unackedHandler unacked]) ++
          [ConsEvent.clearHandle] }
    else { state := s, events := [] }
  | none => { state := s, events := [] }

/-- The callback argument of RabbitMQConsumer.consume: None, a callable,
or a non-callable non-None object. -/
inductive CallbackArg where
  | noCallback
  | callableFn (id : Nat)
  | notCallable
  deriving Repr, DecidableEq

/-- Result of RabbitMQConsumer.consume: updated state, Python-level
outcome, broker calls made by this invocation, and how many times
stop_consuming was invoked on the way. -/
structure ConsumeResult where
  state : ConsumerState
  result : Except PyError Unit
  calls : List BrokerCall
  stops : Nat
  deriving Repr

/-- RabbitMQConsumer.consume(auto_ack, callback, restart_if_running):
raises the not-connected RuntimeError before any broker call when not
ready; returns silently when already consuming and restart_if_running is
false; stops the current consumer first when already consuming and
restart_if_running is true; then rejects a non-callable non-None callback
with a TypeError, and otherwise issues basic_consume (brokerTag models
the consumer tag the broker returns), records the new subscription handle
and enters start_consuming. -/
def consume (s : ConsumerState) (auto_ack : Bool) (callback : CallbackArg)
    (restart_if_running : Bool) (brokerTag : String) (unacked : List Nat) :
    ConsumeResult :=
  if ready s.rmq then
    if s.consuming && !restart_if_running then
      { state := s, result := Except.ok (), calls := [], stops := 0 }
    else
      let stopped :=
        if s.consuming && restart_if_running then
          ((stop_consuming unacked s).state, 1)
        else (s, 0)
      match callback with
      | CallbackArg.notCallable =>
        { state := stopped.1,
          result := Except.error
            (PyError.typeError "callback must be a callable object or None."),
          calls := [], stops := stopped.2 }
      | _ =>
        let subscribed :=
          { stopped.1 with consumer_tag := some brokerTag,
                           consuming := true }
        { state := subscribed,
          result := Except.ok (),
          calls := [BrokerCall.basicConsume stopped.1.queue auto_ack,
                    BrokerCall.startConsuming],
          stops := stopped.2 }
  else
    { state := s, result := Except.error notConnectedError,
      calls := [], stops := 0 }

/-- C3: whenever the instance is not ready, _basic_publish (and hence
publish) and consume raise the not-connected RuntimeError, make no broker
call, and leave the state untouched. -/
theorem not_ready_raises_before_broker_call (s : RMQState)
    (cs : ConsumerState) (exchange routing_key : String) (body : List Nat)
    (durable : Bool) (channelErr : Option PyError) (auto_ack : Bool)
    (callback : CallbackArg) (restart_if_running : Bool) (brokerTag : String)
    (unacked : List Nat) (hs : ready s = false)
    (hcs : ready cs.rmq = false) :
    basic_publish s exchange routing_key body durable channelErr =
      { result := Except.error notConnectedError, calls := [] } ∧
    publish s body routing_key exchange durable channelErr =
      { result := Except.error notConnectedError, calls := [] } ∧
    consume cs auto_ack callback restart_if_running brokerTag unacked =
      { state := cs, result := Except.error notConnectedError,
        calls := [], stops := 0 } := by
  refine ⟨?_, ?_, ?_⟩
  · simp [basic_publish, hs]
  · simp [publish, basic_publish, hs]
  · simp [consume, hcs]

/-- Witness for C3: on a fresh, never-connected consumer state both
publish and consume fail with the not-connected error and zero broker
calls. -/
theorem not_ready_raises_before_broker_call_witness :
    basic_publish initState "ex" "rk" [104, 105] true none =
      { result := Except.error notConnectedError, calls := [] } ∧
    publish initState [104, 105] "rk" "ex" true none =
      { result := Except.error notConnectedError, calls := [] } ∧
    consume { rmq := initState, queue := "q", consuming := false,
              consumer_tag := none } false CallbackArg.noCallback true
        "ctag" [] =
      { state := { rmq := initState, queue := "q", consuming := false,
                   consumer_tag := none },
        result := Except.error notConnectedError, calls := [], stops := 0 } :=
  not_ready_raises_before_broker_call initState
    { rmq := initState, queue := "q", consuming := false,
      consumer_tag := none } "ex" "rk" [104, 105] true none false
    CallbackArg.noCallback true "ctag" [] rfl rfl

/-- C4: while ready, publishing with durable true issues exactly one
basic_publish carrying the Persistent delivery mode and durable false the
Transient one; the exchange, routing key and body reach the broker
unchanged in both cases, so the durable flag changes nothing but the
delivery-mode metadata. -/
theorem publish_durability_mapping (s : RMQState)
    (exchange routing_key : String) (body : List Nat)
    (channelErr : Option PyError) (h : ready s = true) :
    (basic_publish s exchange routing_key body true channelErr).calls =
      [BrokerCall.basicPublish exchange routing_key body
        deliveryModePersistent] ∧
    (basic_publish s exchange routing_key body false channelErr).calls =
      [BrokerCall.basicPublish exchange routing_key body
        deliveryModeTransient] ∧
    (publish s body routing_key exchange true channelErr).calls =
      (basic_publish s exchange routing_key body true channelErr).calls := by
  cases channelErr <;> simp [publish, basic_publish, h]

/-- Witness for C4: on a connected state the two delivery modes are
produced as claimed. -/
theorem publish_durability_mapping_witness :
    (basic_publish
        { connection := some { is_open := true },
          channel := some { is_open := true } } "logs" "app.key" [1, 2]
        true none).calls =
      [BrokerCall.basicPublish "logs" "app.key" [1, 2]
        deliveryModePersistent] ∧
    (basic_publish
        { connection := some { is_open := true },
          channel := some { is_open := true } } "logs" "app.key" [1, 2]
        false none).calls =
      [BrokerCall.basicPublish "logs" "app.key" [1, 2]
        deliveryModeTransient] :=
  ⟨(publish_durability_mapping
      { connection := some { is_open := true },
        channel := some { is_open := true } } "logs" "app.key" [1, 2]
      none rfl).1,
   (publish_durability_mapping
      { connection := some { is_open := true },
        channel := some { is_open := true } } "logs" "app.key" [1, 2]
      none rfl).2.1⟩

/-- Counterexample for C5: a consumer that is subscribed (consuming flag
set, active consumer tag held) but whose connection has been lost performs
no broker cancel at all in stop_consuming and its handle is not cleared,
contradicting the claim that stop() invoked while subscribed cancels the
active consumer tag. -/
theorem stop_consuming_subscribed_not_ready_counterexample :
    ({ rmq := { connection := some { is_open := false },
                channel := some { is_open := false } },
       queue := "q", consuming := true,
       consumer_tag := some "ctag-1" } : ConsumerState).consuming = true ∧
    ({ rmq := { connection := some { is_open := false },
                channel := some { is_open := false } },
       queue := "q", consuming := true,
       consumer_tag := some "ctag-1" } : ConsumerState).consumer_tag =
      some "ctag-1" ∧
    stop_consuming []
      { rmq := { connection := some { is_open := false },
                 channel := some { is_open := false } },
        queue := "q", consuming := true, consumer_tag := some "ctag-1" } =
      { state := { rmq := { connection := some { is_open := false },
                            channel := some { is_open := false } },
                   queue := "q", consuming := true,
                   consumer_tag := some "ctag-1" },
        events := [] } := by
  refine ⟨rfl, rfl, ?_⟩
  decide

/-- C5 as amended: stop_consuming invoked while not subscribed performs
zero broker cancel calls and no error is raised; invoked while subscribed
AND still ready it cancels the active consumer tag exactly once, hands any
unacknowledged in-flight messages to the owner-supplied handler before the
subscription handle is cleared, and clears the handle; invoked while the
connection is no longer ready it performs no cancel and leaves the handle
in place. -/
theorem stop_consuming_contract (s : ConsumerState) (unacked : List Nat) :
    (s.consumer_tag = none →
      stop_consuming unacked s = { state := s, events := [] }) ∧
    (ready s.rmq = false →
      stop_consuming unacked s = { state := s, events := [] }) ∧
    (∀ tag, s.consumer_tag = some tag → tag ≠ "" → ready s.rmq = true →
      stop_consuming unacked s =
        { state := { s with consuming := false, consumer_tag := none },
          events := [ConsEvent.brokerCancel tag] ++
            (if unacked.isEmpty then []
             else [ConsEvent.unackedHandler unacked]) ++
            [ConsEvent.clearHandle] }) := by
  refine ⟨?_, ?_, ?_⟩
  · intro h
    simp [stop_consuming, h]
  · intro h
    cases ht : s.consumer_tag with
    | none => simp [stop_consuming, ht]
    | some tag => simp [stop_consuming, ht, h]
  · intro tag ht hne hr
    have hb : (tag != "") = true := by simp [hne]
    simp [stop_consuming, ht, hb, hr]

/-- Witness for C5: a subscribed, ready consumer with one in-flight
unacknowledged message cancels its tag, hands the message to the handler
and only then clears the handle. -/
theorem stop_consuming_contract_witness :
    stop_consuming [7]
      { rmq := { connection := some { is_open := true },
                 channel := some { is_open := true } },
        queue := "q", consuming := true, consumer_tag := some "ctag-1" } =
      { state := { rmq := { connection := some { is_open := true },
                            channel := some { is_open := true } },
                   queue := "q", consuming := false, consumer_tag := none },
        events := [ConsEvent.brokerCancel "ctag-1",
                   ConsEvent.unackedHandler [7],
                   ConsEvent.clearHandle] } := by
  have h := (stop_consuming_contract
    { rmq := { connection := some { is_open := true },
               channel := some { is_open := true } },
      queue := "q", consuming := true, consumer_tag := some "ctag-1" }
    [7]).2.2 "ctag-1" rfl (by decide) rfl
  simpa using h

/-- Result of an assignment to the RabbitMQConsumer.queue property. -/
structure SetQueueResult where
  state : ConsumerState
  result : Except PyError Unit
  stops : Nat
  events : List ConsEvent
  deriving Repr

/-- The RabbitMQConsumer.queue setter, applied to a string value (the
isinstance check passes for every string): rejects the empty string with a
ValueError; calls stop_consuming first exactly when the value differs from
the current queue, the consumer tag is truthy and the consuming flag is
set; and finally updates the _queue field. -/
def set_queue (unacked : List Nat) (s : ConsumerState) (value : String) :
    SetQueueResult :=
  if value = "" then
    { state := s,
      result := Except.error (PyError.valueError "queue_name must not be empty."),
      stops := 0, events := [] }
  else if (value != s.queue) && tagTruthy s.consumer_tag && s.consuming then
    let r := stop_consuming unacked s
    { state := { r.state with queue := value }, result := Except.ok (),
      stops := 1, events := r.events }
  else
    { state := { s with queue := value }, result := Except.ok (),
      stops := 0, events := [] }

/-- C6: assigning a non-empty queue name while actively consuming (flag
set, truthy tag) and different from the current one triggers exactly one
stop_consuming, evaluated on the pre-update state, before the queue field
changes; assigning the current value triggers zero stops and leaves the
state unchanged; assigning a new value while idle updates only the queue
field with no stop and no broker event. -/
theorem queue_setter_stop_semantics (s : ConsumerState) (value : String)
    (unacked : List Nat) (hv : value ≠ "") :
    (value ≠ s.queue → s.consuming = true →
      tagTruthy s.consumer_tag = true →
      (set_queue unacked s value).stops = 1 ∧
      (set_queue unacked s value).state =
        { (stop_consuming unacked s).state with queue := value } ∧
      (set_queue unacked s value).events =
        (stop_consuming unacked s).events) ∧
    (value = s.queue →
      set_queue unacked s value =
        { state := s, result := Except.ok (), stops := 0, events := [] }) ∧
    (s.consuming = false →
      set_queue unacked s value =
        { state := { s with queue := value }, result := Except.ok (),
          stops := 0, events := [] }) := by
  refine ⟨?_, ?_, ?_⟩
  · intro h1 h2 h3
    have hb : (value != s.queue) = true := by simp [h1]
    refine ⟨?_, ?_, ?_⟩ <;> simp [set_queue, hv, hb, h2, h3]
  · intro h
    subst h
    have hb : (s.queue != s.queue) = false := by simp
    simp [set_queue, hv, hb]
  · intro h
    simp [set_queue, hv, h]

/-- Witness for C6: with an open connection, changing the queue of an
actively consuming consumer performs one stop, while the same assignment
on an idle consumer performs none and only updates the field. -/
theorem queue_setter_stop_semantics_witness :
    (set_queue []
      { rmq := { connection := some { is_open := true },
                 channel := some { is_open := true } },
        queue := "old", consuming := true, consumer_tag := some "t1" }
      "new").stops = 1 ∧
    set_queue []
      { rmq := { connection := some { is_open := true },
                 channel := some { is_open := true } },
        queue := "old", consuming := false, consumer_tag := none }
      "new" =
      { state := { rmq := { connection := some { is_open := true },
                            channel := some { is_open := true } },
                   queue := "new", consuming := false, consumer_tag := none },
        result := Except.ok (), stops := 0, events := [] } := by
  constructor
  · exact ((queue_setter_stop_semantics
      { rmq := { connection := some { is_open := true },
                 channel := some { is_open := true } },
        queue := "old", consuming := true, consumer_tag := some "t1" }
      "new" [] (by decide)).1 (by decide) rfl rfl).1
  · have h := (queue_setter_stop_semantics
      { rmq := { connection := some { is_open := true },
                 channel := some { is_open := true } },
        queue := "old", consuming := false, consumer_tag := none }
      "new" [] (by decide)).2.2 rfl
    simpa using h

/-- A value stored in a message-properties headers mapping: a string, an
integer, or Python None. -/
inductive HeaderVal where
  | hstr (s : String)
  | hint (n : Int)
  | hnone
  deriving Repr, DecidableEq

/-- Python truthiness of a header value: the empty string, zero and None
are falsy. -/
def HeaderVal.truthy : HeaderVal → Bool
  | HeaderVal.hstr s => s != ""
  | HeaderVal.hint n => n != 0
  | HeaderVal.hnone => false

/-- Python str() applied to a header value. -/
def HeaderVal.pyStr : HeaderVal → String
  | HeaderVal.hstr s => s
  | HeaderVal.hint n => toString n
  | HeaderVal.hnone => "None"

/-- Dictionary lookup in a headers mapping (keys are unique in a Python
dict; the first match is returned). -/
def hlookup (key : String) : List (String × HeaderVal) → Option HeaderVal
  | [] => none
  | (k, v) :: rest => if k = key then some v else hlookup key rest

/-- The argument passed to _get_session_id_from_properties: Python None, a
bare dict, or a pika BasicProperties object whose headers attribute is
either None or a dict. -/
inductive PropsArg where
  | pnone
  | bareDict (entries : List (String × HeaderVal))
  | props (headers : Option (List (String × HeaderVal)))
  deriving Repr, DecidableEq

/-- RabbitMQStatefulMixin._get_session_id_from_properties(properties):
raises a TypeError unless the argument is a BasicProperties object;
returns None when the headers attribute is falsy (absent or empty), when
the session_id key is missing, or when its value is falsy; and otherwise
returns str of the value. -/
def get_session_id_from_properties (p : PropsArg) :
    Except PyError (Option String) :=
  match p with
  | PropsArg.props headers =>
    match headers with
    | none => Except.ok none
    | some entries =>
      if entries.isEmpty then Except.ok none
      else
        match hlookup "session_id" entries with
        | none => Except.ok none
        | some v =>
          if v.truthy then Except.ok (some v.pyStr) else Except.ok none
  | _ => Except.error (PyError.typeError "Expected Pika BasicProperties object.")

/-- C7: session-id extraction returns None for absent or empty headers,
for a missing session_id key and for a falsy session_id value; returns the
stringified value for any truthy value, in particular the string form of
an integer; and raises a TypeError for Python None and for a bare mapping
in place of the properties object. -/
theorem get_session_id_contract :
    get_session_id_from_properties (PropsArg.props none) = Except.ok none ∧
    get_session_id_from_properties (PropsArg.props (some [])) =
      Except.ok none ∧
    (∀ entries, hlookup "session_id" entries = none →
      get_session_id_from_properties (PropsArg.props (some entries)) =
        Except.ok none) ∧
    (∀ entries v, hlookup "session_id" entries = some v →
      v.truthy = false →
      get_session_id_from_properties (PropsArg.props (some entries)) =
        Except.ok none) ∧
    (∀ entries v, hlookup "session_id" entries = some v →
      v.truthy = true →
      get_session_id_from_properties (PropsArg.props (some entries)) =
        Except.ok (some v.pyStr)) ∧
    get_session_id_from_properties
        (PropsArg.props (some [("session_id", HeaderVal.hint 1234)])) =
      Except.ok (some "1234") ∧
    get_session_id_from_properties PropsArg.pnone =
      Except.error (PyError.typeError "Expected Pika BasicProperties object.") ∧
    (∀ entries, get_session_id_from_properties (PropsArg.bareDict entries) =
      Except.error (PyError.typeError "Expected Pika BasicProperties object.")) := by
  have hlist : ∀ (entries : List (String × HeaderVal)) v,
      hlookup "session_id" entries = some v → entries.isEmpty = false := by
    intro entries v h
    cases entries with
    | nil => simp [hlookup] at h
    | cons a rest => rfl
  refine ⟨rfl, rfl, ?_, ?_, ?_, rfl, rfl, fun entries => rfl⟩
  · intro entries h
    cases entries with
    | nil => rfl
    | cons a rest => simp [get_session_id_from_properties, h]
  · intro entries v h hf
    simp [get_session_id_from_properties, hlist entries v h, h, hf]
  · intro entries v h ht
    simp [get_session_id_from_properties, hlist entries v h, h, ht]

/-- Witness for C7: an empty session_id string yields None, a non-empty
one yields itself. -/
theorem get_session_id_contract_witness :
    get_session_id_from_properties
        (PropsArg.props (some [("session_id", HeaderVal.hstr "")])) =
      Except.ok none ∧
    get_session_id_from_properties
        (PropsArg.props (some [("session_id", HeaderVal.hstr "abc")])) =
      Except.ok (some "abc") :=
  ⟨get_session_id_contract.2.2.2.1 [("session_id", HeaderVal.hstr "")]
      (HeaderVal.hstr "") rfl rfl,
   get_session_id_contract.2.2.2.2.1 [("session_id", HeaderVal.hstr "abc")]
      (HeaderVal.hstr "abc") rfl rfl⟩

/-- A Python value passed as the health_check_port or status_code
argument: an int, a float (exact rational), a string, or None. -/
inductive PyVal where
  | vint (n : Int)
  | vfloat (q : Rat)
  | vstr (s : String)
  | vnone
  deriving Repr, DecidableEq

/-- Message of the TypeError CPython raises for int(None). -/
def intOfNoneMsg : String :=
  "int() argument must be a string, a bytes-like object or a real number, not NoneType"

/-- Base-10 digit accumulation for the Python int(str) parse. -/
def digitsValAux : List Char → Nat → Option Nat
  | [], acc => some acc
  | c :: rest, acc =>
    if c.isDigit then digitsValAux rest (acc * 10 + (c.toNat - 48))
    else none

/-- Model of the Python int(str) base-10 parse: an optional leading minus
sign followed by at least one decimal digit; anything else fails. -/
def pyParseInt (s : String) : Option Int :=
  match s.data with
  | [] => none
  | c :: rest =>
    if c = '-' then
      match rest with
      | [] => none
      | _ => (digitsValAux rest 0).map (fun n => -(n : Int))
    else (digitsValAux (c :: rest) 0).map (fun n => (n : Int))

/-- Python int(x): identity on ints, truncation toward zero on floats,
parse for strings (ValueError on failure), TypeError on None. -/
def pyIntConv : PyVal → Except PyError Int
  | PyVal.vint n => Except.ok n
  | PyVal.vfloat q => Except.ok (q.num.tdiv (q.den : Int))
  | PyVal.vstr s =>
    match pyParseInt s with
    | some n => Except.ok n
    | none => Except.error
        (PyError.valueError "invalid literal for int() with base 10")
  | PyVal.vnone => Except.error (PyError.typeError intOfNoneMsg)

/-- The attributes of a HealthCheckMixin instance read by the health
routes and properties. -/
structure HealthState where
  ready : Bool
  status : Option String
  status_code : Int
  health_port : Int
  deriving Repr, DecidableEq

/-- Result of HealthCheckMixin.__init__: the constructed state or the
exception raised, and whether the Flask listener thread was started. -/
structure HealthInitResult where
  result : Except PyError HealthState
  listenerStarted : Bool
  deriving Repr

/-- HealthCheckMixin.__init__(health_check_port): converts the argument
with int(), re-raising a ValueError with its own message while letting any
other exception (such as the TypeError from int(None)) propagate; rejects
a non-positive converted value with the same ValueError; on success stores
_ready = False, _status = None, _status_code = 503 and starts the listener
thread. -/
def healthCheckInit (health_check_port : PyVal) : HealthInitResult :=
  match pyIntConv health_check_port with
  | Except.error (PyError.valueError _) =>
    { result := Except.error
        (PyError.valueError "health_check_port must be a valid port number."),
      listenerStarted := false }
  | Except.error e => { result := Except.error e, listenerStarted := false }
  | Except.ok n =>
    if n ≤ 0 then
      { result := Except.error
          (PyError.valueError "health_check_port must be a valid port number."),
        listenerStarted := false }
    else
      { result := Except.ok
          { ready := false, status := none, status_code := 503,
            health_port := n },
        listenerStarted := true }

/-- The GET /health route: body and response code. -/
def healthRoute (s : HealthState) : String × Int :=
  if s.ready then ("OK", 200) else ("Starting...", 503)

/-- The JSON body returned by the GET /status route. -/
structure StatusBody where
  status : Option String
  uptime_seconds : Int
  deriving Repr, DecidableEq

/-- The GET /status route: the JSON body holding the status message and
the uptime reading taken at request time, and the response code, which is
the raw _status_code attribute when ready and 503 otherwise. -/
def statusRoute (s : HealthState) (uptimeNow : Int) : StatusBody × Int :=
  ({ status := s.status, uptime_seconds := uptimeNow },
   if s.ready then s.status_code else 503)

/-- C8: for every readiness value, GET /health answers 200 "OK" when
ready and 503 "Starting..." otherwise, and GET /status answers the JSON
body carrying the status message and uptime_seconds with the configured
status code when ready and 503 otherwise. -/
theorem health_routes_contract (s : HealthState) (u : Int) :
    (s.ready = true →
      healthRoute s = ("OK", 200) ∧
      statusRoute s u =
        ({ status := s.status, uptime_seconds := u }, s.status_code)) ∧
    (s.ready = false →
      healthRoute s = ("Starting...", 503) ∧
      statusRoute s u =
        ({ status := s.status, uptime_seconds := u }, 503)) := by
  constructor <;> intro h <;>
    exact ⟨by simp [healthRoute, h], by simp [statusRoute, h]⟩

/-- Witness for C8: a ready service with status code 200 and a non-ready
one with the default 503. -/
theorem health_routes_contract_witness :
    healthRoute { ready := true, status := some "operational",
                  status_code := 200, health_port := 5001 } = ("OK", 200) ∧
    statusRoute { ready := false, status := none, status_code := 503,
                  health_port := 5002 } 3 =
      ({ status := none, uptime_seconds := 3 }, 503) :=
  ⟨((health_routes_contract
      { ready := true, status := some "operational", status_code := 200,
        health_port := 5001 } 3).1 rfl).1,
   ((health_routes_contract
      { ready := false, status := none, status_code := 503,
        health_port := 5002 } 3).2 rfl).2⟩

/-- C9 evaluated on the code: construction with None raises the TypeError
from int(None) instead of running without a listener with readiness true
as the constructor docstring promises, and the non-integral port 3.7 is
silently truncated to 3 and accepted instead of being rejected; the
non-positive and non-parsable ports 0, -1 and "invalid" are rejected with
the documented ValueError, and a positive integral port is accepted with
readiness initialised to False. -/
theorem healthCheckInit_divergences :
    healthCheckInit PyVal.vnone =
      { result := Except.error (PyError.typeError intOfNoneMsg),
        listenerStarted := false } ∧
    healthCheckInit (PyVal.vfloat (mkRat 37 10)) =
      { result := Except.ok
          { ready := false, status := none, status_code := 503,
            health_port := 3 },
        listenerStarted := true } ∧
    healthCheckInit (PyVal.vint 0) =
      { result := Except.error
          (PyError.valueError "health_check_port must be a valid port number."),
        listenerStarted := false } ∧
    healthCheckInit (PyVal.vint (-1)) =
      { result := Except.error
          (PyError.valueError "health_check_port must be a valid port number."),
        listenerStarted := false } ∧
    healthCheckInit (PyVal.vstr "invalid") =
      { result := Except.error
          (PyError.valueError "health_check_port must be a valid port number."),
        listenerStarted := false } ∧
    healthCheckInit (PyVal.vint 5000) =
      { result := Except.ok
          { ready := false, status := none, status_code := 503,
            health_port := 5000 },
        listenerStarted := true } :=
  ⟨rfl, rfl, rfl, rfl, rfl, rfl⟩

/-- The HealthCheckMixin.status_code property getter applied to the raw
_status_code attribute: the expression self._status_code or 500, so the
falsy stored value 0 reads back as 500. -/
def status_code_get (status_code : Int) : Int :=
  if status_code = 0 then 500 else status_code

/-- The HealthCheckMixin.status_code property setter: accepts an int in
the range 0..599 and stores it unchanged; every other value is rejected
with a ValueError. -/
def status_code_set (value : PyVal) : Except PyError Int :=
  match value with
  | PyVal.vint v =>
    if 0 > v ∨ v > 599 then
      Except.error
        (PyError.valueError "status_code should be valid HTTP status code.")
    else Except.ok v
  | _ =>
    Except.error
      (PyError.valueError "status_code should be valid HTTP status code.")

/-- C10: the status_code setter accepts every integer v with
0 ≤ v ≤ 599 and stores it unchanged, the getter returns v for every
stored v with 1 ≤ v ≤ 599, yet the accepted boundary value 0 reads back
as 500, so the set-then-get round-trip holds for all accepted values
except 0. -/
theorem status_code_roundtrip :
    (∀ v : Int, 0 ≤ v → v ≤ 599 →
      status_code_set (PyVal.vint v) = Except.ok v) ∧
    (∀ v : Int, 1 ≤ v → v ≤ 599 → status_code_get v = v) ∧
    status_code_set (PyVal.vint 0) = Except.ok 0 ∧
    status_code_get 0 = 500 ∧ (500 : Int) ≠ 0 := by
  refine ⟨?_, ?_, rfl, rfl, by decide⟩
  · intro v h0 h599
    have h : ¬(0 > v ∨ v > 599) := by omega
    simp [status_code_set, h]
  · intro v h1 h599
    have h : ¬(v = 0) := by omega
    simp [status_code_get, h]

/-- Witness for C10: the value 250 round-trips, the accepted value 0 does
not. -/
theorem status_code_roundtrip_witness :
    status_code_set (PyVal.vint 250) = Except.ok 250 ∧
    status_code_get 250 = 250 :=
  ⟨status_code_roundtrip.1 250 (by decide) (by decide),
   status_code_roundtrip.2.1 250 (by decide) (by decide)⟩

end Potato
